import Mathlib

/-!
Verification of the pocketmod-creator layout tool (`pocketmod_creator.py`).

The script converts an input PDF into a "pocketmod" booklet PDF: up to eight
source pages are composed (rotated, scaled, translated) onto one freshly
created output sheet.  We embed the script's pure logic shallowly:

* `check_input_file` models the input validator (file-existence flag,
  basename string and page count stand in for the file-system and PDF
  library queries, which are I/O);
* `input_size_orientation` models page-size/orientation detection from the
  first page's media box;
* the layout quantities (`output_width`, `output_height`, `x_translation`,
  `y_translation`, `scale`, `transformation_dict`, the blank output sheet)
  are transcribed from `pocket_modder`;
* the compose loop and the final write are modelled as an event trace
  (`runTrace`), where a page that fails to compose raises, truncating the
  trace before the write event.

Numbers are embedded as rationals; Python 3's `round` (banker's rounding,
half to even) is `pyRound`.
-/

namespace PocketmodCreator

/-- Page orientation, as the strings `'Portrait'` / `'Landscape'` used by
the script. -/
inductive Orientation where
  | portrait
  | landscape
deriving DecidableEq, Repr

/-- `pypdf_scale = 0.3528`, the mm approximation of 1/72 of an inch used by
the script to convert between PyPDF2 native units (points) and mm. -/
def pypdf_scale : ℚ := 3528 / 10000

/-- Python 3 `round` on an exact rational value: round half to even. -/
def pyRound (q : ℚ) : ℤ :=
  if q - ⌊q⌋ < 1 / 2 then ⌊q⌋
  else if 1 / 2 < q - ⌊q⌋ then ⌊q⌋ + 1
  else if ⌊q⌋ % 2 = 0 then ⌊q⌋ else ⌊q⌋ + 1

/-- Python `s[-3:]` on a string: the last three characters (the whole
string when it is shorter), expressed on the character list. -/
def lastThree (s : String) : String := ⟨s.data.drop (s.data.length - 3)⟩

/-- Python `str.lower` restricted to ASCII (sufficient for the `'pdf'`
comparison the script performs), expressed on the character list. -/
def lowerAscii (s : String) : String := ⟨s.data.map Char.toLower⟩

/-- Message of the `FileNotFoundError` raised for a missing input file. -/
def msgNotFound : String := "Please enter a valid filename."

/-- Message of the `ValueError` raised for a non-pdf extension. -/
def msgNotPdf : String := "File type is not a pdf."

/-- Warning printed when the input has more than 8 pages. -/
def msgTooManyPages : String :=
  "\nInput file contains more than 8 pages.\nOnly the first 8 will be converted."

/-- Outcome of `check_input_file`: a raised error (with its message), a
printed warning after which processing continues, or silent success. -/
inductive CheckResult where
  | fileNotFoundError (msg : String)
  | valueError (msg : String)
  | warnAndContinue (msg : String)
  | ok
deriving DecidableEq, Repr

/-- `check_input_file` from the script.  `isFile` is the result of
`os.path.isfile(input_file)`, `basename` the result of
`os.path.basename(input_file)`, and `numPages` the PDF's page count. -/
def check_input_file (isFile : Bool) (basename : String) (numPages : ℕ) :
    CheckResult :=
  if isFile = false then .fileNotFoundError msgNotFound
  else if ¬(lowerAscii (lastThree basename) = "pdf") then .valueError msgNotPdf
  else if numPages > 8 then .warnAndContinue msgTooManyPages
  else .ok

/-- A PDF media box `[x0, y0, x1, y1]`: lower-left and upper-right corner
coordinates in native units.  The script reads entries 2 and 3. -/
structure MediaBox where
  x0 : ℚ
  y0 : ℚ
  x1 : ℚ
  y1 : ℚ
deriving DecidableEq, Repr

/-- `input_size_orientation` from the script: width and height are the
media box entries at indices 2 and 3 converted to mm and rounded, and the
orientation is Landscape iff `width > height`. -/
def input_size_orientation (m : MediaBox) : ℤ × ℤ × Orientation :=
  let width := pyRound (m.x1 * pypdf_scale)
  let height := pyRound (m.y1 * pypdf_scale)
  (width, height, if width > height then .landscape else .portrait)

/-- The orientation rule of lines 57-60 of the script, on exact values. -/
def orientationOf (w h : ℚ) : Orientation :=
  if w > h then .landscape else .portrait

/-- The width/height swap at the start of `pocket_modder`
(`if orientation == 'Landscape': width, height = height, width`). -/
def normalize (w h : ℚ) : Orientation → ℚ × ℚ
  | .landscape => (h, w)
  | .portrait => (w, h)

/-- `output_width = height / 4` (the width of one booklet cell, in mm),
computed from the normalized width/height. -/
def output_width (_w h : ℚ) : ℚ := h / 4

/-- `output_height = width / 2` (the height of one booklet cell, in mm),
computed from the normalized width/height. -/
def output_height (w _h : ℚ) : ℚ := w / 2

/-- `x_translation = output_width / pypdf_scale` (cell width in native
units, the per-column translation step). -/
def x_translation (w h : ℚ) : ℚ := output_width w h / pypdf_scale

/-- `y_translation = output_height / pypdf_scale` (cell height in native
units, the common y offset). -/
def y_translation (w h : ℚ) : ℚ := output_height w h / pypdf_scale

/-- `scale = min(output_width / width, output_height / height)`, the
uniform content scale, computed from the normalized width/height. -/
def scale (w h : ℚ) : ℚ :=
  min (output_width w h / w) (output_height w h / h)

/-- `transformation_dict` from the script: for each orientation and cell
index, the tuple `(x offset, y offset, rotation in degrees)` passed to
`mergeRotatedScaledTranslatedPage`. -/
def transformation_dict (o : Orientation) (w h : ℚ) (i : Fin 8) :
    ℚ × ℚ × ℤ :=
  let x := x_translation w h
  let y := y_translation w h
  match o, i with
  | .landscape, 0 => (0, y, 270)
  | .landscape, 1 => (x, y, 90)
  | .landscape, 2 => (x * 2, y, 90)
  | .landscape, 3 => (x * 3, y, 90)
  | .landscape, 4 => (x * 4, y, 90)
  | .landscape, 5 => (x * 3, y, 270)
  | .landscape, 6 => (x * 2, y, 270)
  | .landscape, 7 => (x, y, 270)
  | .portrait, 0 => (x, y, 180)
  | .portrait, 1 => (0, y, 0)
  | .portrait, 2 => (x, y, 0)
  | .portrait, 3 => (x * 2, y, 0)
  | .portrait, 4 => (x * 3, y, 0)
  | .portrait, 5 => (x * 4, y, 180)
  | .portrait, 6 => (x * 3, y, 180)
  | .portrait, 7 => (x * 2, y, 180)

/-- The blank output page created by
`writer.addBlankPage(height / pypdf_scale, width / pypdf_scale)`, where
`width`/`height` are the (already swapped) values: `addBlankPage` takes
`(width, height)`, so the sheet is `(normalized height, normalized width)`
in native units, returned here as `(sheet width, sheet height)`. -/
def outputSheet (w h : ℚ) (o : Orientation) : ℚ × ℚ :=
  let p := normalize w h o
  (p.2 / pypdf_scale, p.1 / pypdf_scale)

/-- The whole geometry pipeline for the output sheet: detect size and
orientation from the media box, then create the blank sheet, returning its
`(width, height)` in native units. -/
def pipelineSheet (m : MediaBox) : ℚ × ℚ :=
  let r := input_size_orientation m
  outputSheet (r.1 : ℚ) (r.2.1 : ℚ) r.2.2

/-- Geometry detection as the spec's words describe the page's TRUE
width/height: media box extents (upper-right minus lower-left), converted
and rounded the same way.  Used only to compare with
`input_size_orientation`. -/
def extentGeometry (m : MediaBox) : ℤ × ℤ × Orientation :=
  let width := pyRound ((m.x1 - m.x0) * pypdf_scale)
  let height := pyRound ((m.y1 - m.y0) * pypdf_scale)
  (width, height, if width > height then .landscape else .portrait)

/-- The indices composed by the loop
`while i < 8 and i < input_pdf.getNumPages(): ... i += 1`, starting
from `i`. -/
def composeFrom (numPages i : ℕ) : List ℕ :=
  if h : i < 8 ∧ i < numPages then i :: composeFrom numPages (i + 1) else []
termination_by 8 - i
decreasing_by omega

/-- The indices of the source pages composed onto the output sheet. -/
def composedPages (numPages : ℕ) : List ℕ := composeFrom numPages 0

/-- Observable events of a `pocket_modder` run: composing source page `i`
onto the sheet, and writing the output file. -/
inductive Event where
  | compose (i : ℕ)
  | write
deriving DecidableEq, Repr

/-- The event trace of `pocket_modder`'s loop-then-write body, starting
the loop at index `i`.  `failsAt j = true` means reading/composing source
page `j` raises; the exception propagates, so the trace stops there and in
particular the write (which comes only after the loop) never happens. -/
def runFrom (failsAt : ℕ → Bool) (numPages i : ℕ) : List Event :=
  if h : i < 8 ∧ i < numPages then
    if failsAt i then []
    else Event.compose i :: runFrom failsAt numPages (i + 1)
  else [Event.write]
termination_by 8 - i
decreasing_by omega

/-- The full event trace of a `pocket_modder` run. -/
def runTrace (failsAt : ℕ → Bool) (numPages : ℕ) : List Event :=
  runFrom failsAt numPages 0

/-- Axis-aligned footprint `((x low, x high), (y low, y high))` of a
`W × H` page after rotating by `rot` degrees counter-clockwise about the
origin (PyPDF2's rotation convention) and translating by `(tx, ty)`. -/
def rotRect (W H : ℚ) (rot : ℤ) (tx ty : ℚ) : (ℚ × ℚ) × (ℚ × ℚ) :=
  if rot = 0 then ((tx, tx + W), (ty, ty + H))
  else if rot = 90 then ((tx - H, tx), (ty, ty + W))
  else if rot = 180 then ((tx - W, tx), (ty - H, ty))
  else ((tx, tx + H), (ty - W, ty))

/-- The cell-sized page footprint for a given rotation: content that,
once rotated, exactly fills one `x_translation × y_translation` cell. -/
def cellPage (w h : ℚ) (rot : ℤ) : ℚ × ℚ :=
  if rot = 0 ∨ rot = 180 then (x_translation w h, y_translation w h)
  else (y_translation w h, x_translation w h)

/-- Footprint on the sheet of placement `i`: the cell-sized page, rotated
and translated per `transformation_dict`. -/
def placementFootprint (o : Orientation) (w h : ℚ) (i : Fin 8) :
    (ℚ × ℚ) × (ℚ × ℚ) :=
  let t := transformation_dict o w h i
  let p := cellPage w h t.2.2
  rotRect p.1 p.2 t.2.2 t.1 t.2.1

/-- Grid cell at column `c` (0..3, left to right) and row `r` (0..1,
bottom to top) of the output sheet's 4 × 2 grid. -/
def gridCell (w h : ℚ) (c r : ℕ) : (ℚ × ℚ) × (ℚ × ℚ) :=
  (((c : ℚ) * x_translation w h, ((c : ℚ) + 1) * x_translation w h),
   ((r : ℚ) * y_translation w h, ((r : ℚ) + 1) * y_translation w h))

/-- The (column, row) grid cell occupied by placement `i`; it is the same
for both orientations. -/
def cellIndexMap : Fin 8 → ℕ × ℕ
  | 0 => (0, 0)
  | 1 => (0, 1)
  | 2 => (1, 1)
  | 3 => (2, 1)
  | 4 => (3, 1)
  | 5 => (3, 0)
  | 6 => (2, 0)
  | 7 => (1, 0)

/-- Inverse of `cellIndexMap` on the 4 × 2 grid. -/
def cellToIndex : ℕ → ℕ → Fin 8
  | 0, 0 => 0
  | 0, 1 => 1
  | 1, 1 => 2
  | 2, 1 => 3
  | 3, 1 => 4
  | 3, 0 => 5
  | 2, 0 => 6
  | 1, 0 => 7
  | _, _ => 0

/-- The spec's literal placement table (§8 items 4 and 5):
`(x multiplier, y multiplier, rotation)` per orientation and cell index. -/
def specTable (o : Orientation) (i : Fin 8) : ℚ × ℚ × ℤ :=
  match o, i with
  | .portrait, 0 => (1, 1, 180)
  | .portrait, 1 => (0, 1, 0)
  | .portrait, 2 => (1, 1, 0)
  | .portrait, 3 => (2, 1, 0)
  | .portrait, 4 => (3, 1, 0)
  | .portrait, 5 => (4, 1, 180)
  | .portrait, 6 => (3, 1, 180)
  | .portrait, 7 => (2, 1, 180)
  | .landscape, 0 => (0, 1, 270)
  | .landscape, 1 => (1, 1, 90)
  | .landscape, 2 => (2, 1, 90)
  | .landscape, 3 => (3, 1, 90)
  | .landscape, 4 => (4, 1, 90)
  | .landscape, 5 => (3, 1, 270)
  | .landscape, 6 => (2, 1, 270)
  | .landscape, 7 => (1, 1, 270)

/-! ### Helper lemmas -/

theorem pypdf_scale_pos : 0 < pypdf_scale := by norm_num [pypdf_scale]

theorem pyRound_close (q : ℚ) : |(pyRound q : ℚ) - q| ≤ 1 / 2 := by
  have h0 : ((⌊q⌋ : ℤ) : ℚ) ≤ q := Int.floor_le q
  have h1 : q < ((⌊q⌋ : ℤ) : ℚ) + 1 := Int.lt_floor_add_one q
  unfold pyRound
  split_ifs with hf hg he <;>
    · rw [abs_le]
      constructor <;> push_cast <;> linarith

theorem composeFrom_eq_range' (numPages : ℕ) :
    ∀ k i, 8 - i ≤ k → composeFrom numPages i = List.range' i (min 8 numPages - i) := by
  intro k
  induction k with
  | zero =>
    intro i hi
    rw [composeFrom]
    have hc : ¬(i < 8 ∧ i < numPages) := by omega
    rw [dif_neg hc]
    have hz : min 8 numPages - i = 0 := by omega
    rw [hz]
    rfl
  | succ k ih =>
    intro i hi
    rw [composeFrom]
    by_cases hc : i < 8 ∧ i < numPages
    · rw [dif_pos hc, ih (i + 1) (by omega)]
      have hm : min 8 numPages - i = (min 8 numPages - (i + 1)) + 1 := by omega
      rw [hm, List.range'_succ]
    · rw [dif_neg hc]
      have hz : min 8 numPages - i = 0 := by omega
      rw [hz]
      rfl

theorem runFrom_write_iff (f : ℕ → Bool) (n : ℕ) :
    ∀ k i, 8 - i ≤ k →
      (Event.write ∈ runFrom f n i ↔
        ∀ j, i ≤ j → j < min 8 n → f j = false) := by
  intro k
  induction k with
  | zero =>
    intro i hi
    rw [runFrom]
    have hc : ¬(i < 8 ∧ i < n) := by omega
    rw [dif_neg hc]
    simp only [List.mem_singleton, true_iff]
    intro j h1 h2
    omega
  | succ k ih =>
    intro i hi
    rw [runFrom]
    by_cases hc : i < 8 ∧ i < n
    · rw [dif_pos hc]
      by_cases hfi : f i = true
      · rw [if_pos hfi]
        simp only [List.not_mem_nil, false_iff]
        intro hall
        have := hall i (le_refl i) (by omega)
        rw [hfi] at this
        simp at this
      · rw [if_neg hfi]
        simp only [List.mem_cons, reduceCtorEq, false_or]
        rw [ih (i + 1) (by omega)]
        constructor
        · intro hall j h1 h2
          rcases Nat.eq_or_lt_of_le h1 with he | hlt
          · rw [← he]
            exact Bool.not_eq_true _ ▸ hfi
          · exact hall j (by omega) h2
        · intro hall j h1 h2
          exact hall j (by omega) h2
    · rw [dif_neg hc]
      simp only [List.mem_singleton, true_iff]
      intro j h1 h2
      omega

theorem runFrom_success_shape (f : ℕ → Bool) (n : ℕ) :
    ∀ k i, 8 - i ≤ k → (∀ j, i ≤ j → j < min 8 n → f j = false) →
      runFrom f n i =
        (List.range' i (min 8 n - i)).map Event.compose ++ [Event.write] := by
  intro k
  induction k with
  | zero =>
    intro i hi hall
    rw [runFrom]
    have hc : ¬(i < 8 ∧ i < n) := by omega
    rw [dif_neg hc]
    have hz : min 8 n - i = 0 := by omega
    rw [hz]
    rfl
  | succ k ih =>
    intro i hi hall
    rw [runFrom]
    by_cases hc : i < 8 ∧ i < n
    · rw [dif_pos hc]
      have hfi : f i = false := hall i (le_refl i) (by omega)
      rw [if_neg (by rw [hfi]; exact Bool.false_ne_true)]
      rw [ih (i + 1) (by omega) (fun j h1 h2 => hall j (by omega) h2)]
      have hm : min 8 n - i = (min 8 n - (i + 1)) + 1 := by omega
      rw [hm, List.range'_succ]
      rfl
    · rw [dif_neg hc]
      have hz : min 8 n - i = 0 := by omega
      rw [hz]
      rfl

theorem placementFootprint_eq (o : Orientation) (w h : ℚ) (i : Fin 8) :
    placementFootprint o w h i =
      gridCell w h (cellIndexMap i).1 (cellIndexMap i).2 := by
  cases o <;> fin_cases i <;>
    simp [placementFootprint, transformation_dict, cellPage, rotRect,
      cellIndexMap, gridCell, Prod.ext_iff] <;>
    norm_num <;> ring_nf <;> simp

theorem cellIndexMap_bounds :
    ∀ i : Fin 8, (cellIndexMap i).1 < 4 ∧ (cellIndexMap i).2 < 2 := by decide

theorem cellToIndex_works :
    ∀ c, c < 4 → ∀ r, r < 2 → cellIndexMap (cellToIndex c r) = (c, r) := by decide

theorem cellIndexMap_determines :
    ∀ j : Fin 8, ∀ c, c < 4 → ∀ r, r < 2 → cellIndexMap j = (c, r) →
      j = cellToIndex c r := by decide

theorem gridCell_inj (w h : ℚ) (hw : 0 < w) (hh : 0 < h) {c r c' r' : ℕ}
    (e : gridCell w h c r = gridCell w h c' r') : c = c' ∧ r = r' := by
  have hx : 0 < x_translation w h := by
    rw [x_translation, output_width]
    exact div_pos (div_pos hh (by norm_num)) pypdf_scale_pos
  have hy : 0 < y_translation w h := by
    rw [y_translation, output_height]
    exact div_pos (div_pos hw (by norm_num)) pypdf_scale_pos
  rw [gridCell, gridCell, Prod.ext_iff] at e
  obtain ⟨e1, e2⟩ := e
  rw [Prod.ext_iff] at e1 e2
  have hc : (c : ℚ) = c' := mul_right_cancel₀ (ne_of_gt hx) e1.1
  have hr : (r : ℚ) = r' := mul_right_cancel₀ (ne_of_gt hy) e2.1
  exact ⟨Nat.cast_injective hc, Nat.cast_injective hr⟩

theorem pyRound_div_close (x : ℚ) :
    |((pyRound (x * pypdf_scale) : ℤ) : ℚ) / pypdf_scale - x| ≤ 1 / pypdf_scale := by
  have hs : (0 : ℚ) < pypdf_scale := pypdf_scale_pos
  have h := pyRound_close (x * pypdf_scale)
  have h1 : |((pyRound (x * pypdf_scale) : ℤ) : ℚ) - x * pypdf_scale| ≤ 1 :=
    le_trans h (by norm_num)
  have he : ((pyRound (x * pypdf_scale) : ℤ) : ℚ) / pypdf_scale - x =
      (((pyRound (x * pypdf_scale) : ℤ) : ℚ) - x * pypdf_scale) / pypdf_scale := by
    field_simp
    ring
  rw [he, abs_div, abs_of_pos hs]
  exact (div_le_div_iff_of_pos_right hs).mpr h1

theorem input_size_eval_A4portrait :
    input_size_orientation ⟨0, 0, 595, 842⟩ = (210, 297, Orientation.portrait) := by
  norm_num [input_size_orientation, pyRound, pypdf_scale]

theorem input_size_eval_A4landscape :
    input_size_orientation ⟨0, 0, 842, 595⟩ = (297, 210, Orientation.landscape) := by
  norm_num [input_size_orientation, pyRound, pypdf_scale]

theorem input_size_eval_square :
    input_size_orientation ⟨0, 0, 595, 595⟩ = (210, 210, Orientation.portrait) := by
  norm_num [input_size_orientation, pyRound, pypdf_scale]

/-! ### Claim theorems -/

/-- C1: for every input geometry, the placement table of `pocket_modder`
equals the spec's literal tables: each cell's x offset is the spec's x
multiplier times `x_translation`, its y offset is `1 × y_translation`, and
its rotation is the spec's rotation, in both orientations. -/
theorem placement_table_matches_spec (w h : ℚ) (o : Orientation) (i : Fin 8) :
    transformation_dict o w h i =
      ((specTable o i).1 * x_translation w h,
       (specTable o i).2.1 * y_translation w h,
       (specTable o i).2.2) := by
  cases o <;> fin_cases i <;>
    simp [transformation_dict, specTable, Prod.ext_iff] <;> ring

/-- C3: for positive normalized width `w` and height `h`, the content
scale equals `min(cellWidth / w, cellHeight / h)` with `cellWidth = h/4`
and `cellHeight = w/2`; it is strictly positive, and scaling a `w × h`
page by it keeps the page inside one cell in both axes. -/
theorem scale_formula_correct (w h : ℚ) (hw : 0 < w) (hh : 0 < h) :
    scale w h = min (output_width w h / w) (output_height w h / h) ∧
    output_width w h = h / 4 ∧
    output_height w h = w / 2 ∧
    0 < scale w h ∧
    scale w h * w ≤ output_width w h ∧
    scale w h * h ≤ output_height w h := by
  refine ⟨rfl, rfl, rfl, ?_, ?_, ?_⟩
  · rw [scale, lt_min_iff]
    constructor
    · exact div_pos (by rw [output_width]; linarith) hw
    · exact div_pos (by rw [output_height]; linarith) hh
  · rw [← le_div_iff₀ hw]
    exact min_le_left _ _
  · rw [← le_div_iff₀ hh]
    exact min_le_right _ _

/-- C3 witness at the A4 geometry (210, 297). -/
theorem scale_formula_correct_witness :
    scale 210 297 = min (output_width 210 297 / 210) (output_height 210 297 / 297) ∧
    output_width 210 297 = 297 / 4 ∧
    output_height 210 297 = 210 / 2 ∧
    0 < scale 210 297 ∧
    scale 210 297 * 210 ≤ output_width 210 297 ∧
    scale 210 297 * 297 ≤ output_height 210 297 :=
  scale_formula_correct 210 297 (by norm_num) (by norm_num)

/-- C4: orientation detection returns Landscape iff the detected width
exceeds the detected height, returns Portrait otherwise, and in
particular classifies equal width/height as Portrait. -/
theorem orientation_detection_correct (m : MediaBox) :
    ((input_size_orientation m).2.2 = Orientation.landscape ↔
      (input_size_orientation m).2.1 < (input_size_orientation m).1) ∧
    (¬(input_size_orientation m).2.1 < (input_size_orientation m).1 →
      (input_size_orientation m).2.2 = Orientation.portrait) ∧
    ((input_size_orientation m).1 = (input_size_orientation m).2.1 →
      (input_size_orientation m).2.2 = Orientation.portrait) := by
  unfold input_size_orientation
  dsimp only
  split_ifs with hgt <;> simp_all
  omega

/-- C4 witness: A4 portrait, A4 landscape, and a square page. -/
theorem orientation_detection_correct_witness :
    (input_size_orientation ⟨0, 0, 595, 842⟩).2.2 = Orientation.portrait ∧
    (input_size_orientation ⟨0, 0, 842, 595⟩).2.2 = Orientation.landscape ∧
    (input_size_orientation ⟨0, 0, 595, 595⟩).2.2 = Orientation.portrait :=
  ⟨(orientation_detection_correct ⟨0, 0, 595, 842⟩).2.1
     (by rw [input_size_eval_A4portrait]; norm_num),
   (orientation_detection_correct ⟨0, 0, 842, 595⟩).1.mpr
     (by rw [input_size_eval_A4landscape]; norm_num),
   (orientation_detection_correct ⟨0, 0, 595, 595⟩).2.2
     (by rw [input_size_eval_square])⟩

/-- C5: with at least one source page, the composed pages are exactly
pages `0 .. min(8, pageCount) - 1` in index order: their number is
`min(8, pageCount)` and no index 8 or greater is ever composed. -/
theorem composed_pages_exact (numPages : ℕ) (hn : 1 ≤ numPages) :
    composedPages numPages = List.range (min 8 numPages) ∧
    (composedPages numPages).length = min 8 numPages ∧
    ∀ j ∈ composedPages numPages, j < 8 := by
  have he : composedPages numPages = List.range (min 8 numPages) := by
    rw [composedPages, composeFrom_eq_range' numPages 8 0 (by omega),
      Nat.sub_zero, List.range_eq_range']
  refine ⟨he, ?_, ?_⟩
  · rw [he, List.length_range]
  · intro j hj
    rw [he, List.mem_range] at hj
    omega

/-- C5 witness at a 10-page input. -/
theorem composed_pages_exact_witness :
    composedPages 10 = List.range (min 8 10) ∧
    (composedPages 10).length = min 8 10 ∧
    ∀ j ∈ composedPages 10, j < 8 :=
  composed_pages_exact 10 (by norm_num)

/-- C7: validation fails with `FileNotFoundError` and the message
"Please enter a valid filename." exactly when the path is not an existing
regular file; otherwise it fails with `ValueError` and the message
"File type is not a pdf." exactly when the last three characters of the
basename, lowercased, are not "pdf"; otherwise a page count above 8 only
produces a printed warning and processing continues, and at most 8 pages
validate silently. -/
theorem validation_messages_correct (isFile : Bool) (basename : String)
    (numPages : ℕ) :
    (check_input_file isFile basename numPages = .fileNotFoundError msgNotFound ↔
      isFile = false) ∧
    (check_input_file isFile basename numPages = .valueError msgNotPdf ↔
      (isFile = true ∧ lowerAscii (lastThree basename) ≠ "pdf")) ∧
    (isFile = true → lowerAscii (lastThree basename) = "pdf" → 8 < numPages →
      check_input_file isFile basename numPages = .warnAndContinue msgTooManyPages) ∧
    (isFile = true → lowerAscii (lastThree basename) = "pdf" → ¬8 < numPages →
      check_input_file isFile basename numPages = .ok) := by
  cases isFile <;>
    by_cases hb : lowerAscii (lastThree basename) = "pdf" <;>
    by_cases hn : 8 < numPages <;>
    simp [check_input_file, hb, hn]

/-- C7 witness: a missing file, a `.txt` file, a 10-page pdf, and an
8-page pdf. -/
theorem validation_messages_correct_witness :
    check_input_file false "input.pdf" 1 = .fileNotFoundError msgNotFound ∧
    check_input_file true "notes.txt" 1 = .valueError msgNotPdf ∧
    check_input_file true "input.pdf" 10 = .warnAndContinue msgTooManyPages ∧
    check_input_file true "input.pdf" 8 = .ok :=
  ⟨(validation_messages_correct false "input.pdf" 1).1.mpr rfl,
   (validation_messages_correct true "notes.txt" 1).2.1.mpr ⟨rfl, by decide⟩,
   (validation_messages_correct true "input.pdf" 10).2.2.1 rfl (by decide) (by norm_num),
   (validation_messages_correct true "input.pdf" 8).2.2.2 rfl (by decide) (by norm_num)⟩

/-- C8: if composing any of the selected source pages fails, the run
aborts before the output file is written: no write event occurs.  The
write occurs only after every composition, in order, has succeeded: when
it is present, the trace is all `min(8, pageCount)` compositions followed
by the single write. -/
theorem no_output_on_compose_failure (failsAt : ℕ → Bool) (numPages : ℕ) :
    ((∃ i, i < min 8 numPages ∧ failsAt i = true) →
      Event.write ∉ runTrace failsAt numPages) ∧
    (Event.write ∈ runTrace failsAt numPages →
      runTrace failsAt numPages =
        (List.range (min 8 numPages)).map Event.compose ++ [Event.write]) := by
  constructor
  · rintro ⟨i, hi, hf⟩ hw
    have hfalse :=
      (runFrom_write_iff failsAt numPages 8 0 (by omega)).mp hw i (Nat.zero_le i) hi
    rw [hf] at hfalse
    simp at hfalse
  · intro hw
    have hall := (runFrom_write_iff failsAt numPages 8 0 (by omega)).mp hw
    have hshape := runFrom_success_shape failsAt numPages 8 0 (by omega) hall
    rw [runTrace, hshape, Nat.sub_zero, List.range_eq_range']

/-- C8 witness: with page 1 of 3 failing, no write event occurs; with no
failures, the write follows all compositions. -/
theorem no_output_on_compose_failure_witness :
    Event.write ∉ runTrace (fun i => i == 1) 3 ∧
    runTrace (fun _ => false) 3 =
      (List.range (min 8 3)).map Event.compose ++ [Event.write] :=
  ⟨(no_output_on_compose_failure (fun i => i == 1) 3).1 ⟨1, by omega, rfl⟩,
   (no_output_on_compose_failure (fun _ => false) 3).2
     ((runFrom_write_iff (fun _ => false) 3 8 0 (by omega)).mpr
       (fun j h1 h2 => rfl))⟩

/-- C9: the output sheet's native-unit dimensions reproduce the original
first page's native dimensions (as a physical footprint: one of the sheet's
width/height matches each of the page's) up to the mm-conversion rounding
tolerance, one working unit `1 / pypdf_scale` in native terms. -/
theorem round_trip_dimensions (m : MediaBox) :
    (|(pipelineSheet m).1 - m.x1| ≤ 1 / pypdf_scale ∧
      |(pipelineSheet m).2 - m.y1| ≤ 1 / pypdf_scale) ∨
    (|(pipelineSheet m).1 - m.y1| ≤ 1 / pypdf_scale ∧
      |(pipelineSheet m).2 - m.x1| ≤ 1 / pypdf_scale) := by
  have hx := pyRound_div_close m.x1
  have hy := pyRound_div_close m.y1
  unfold pipelineSheet input_size_orientation outputSheet
  dsimp only
  by_cases hgt : pyRound (m.y1 * pypdf_scale) < pyRound (m.x1 * pypdf_scale)
  · rw [if_pos hgt]
    exact Or.inl ⟨hx, hy⟩
  · rw [if_neg hgt]
    exact Or.inr ⟨hy, hx⟩

/-- C2 counterexample: a Portrait A4 input (media box 595 × 842, detected
as 210 × 297 mm Portrait) yields an output sheet of 297 × 210 mm in native
units, which the script's own orientation rule classifies as Landscape;
the sheet therefore does NOT keep the input's orientation. -/
theorem output_sheet_orientation_counterexample :
    (input_size_orientation ⟨0, 0, 595, 842⟩).2.2 = Orientation.portrait ∧
    outputSheet 210 297 Orientation.portrait =
      (297 / pypdf_scale, 210 / pypdf_scale) ∧
    orientationOf (outputSheet 210 297 Orientation.portrait).1
      (outputSheet 210 297 Orientation.portrait).2 = Orientation.landscape := by
  refine ⟨?_, rfl, ?_⟩
  · rw [input_size_eval_A4portrait]
  · norm_num [outputSheet, normalize, orientationOf, pypdf_scale]

/-- C2 amended: the output sheet is sized
`(normalizedHeight, normalizedWidth)` in native units, so it always keeps
the input's physical footprint (its width/height are the input's detected
height/width in some order); but its orientation is Landscape for every
non-square input, so it matches the input's orientation only for
Landscape (and square) inputs, not for Portrait ones. -/
theorem output_sheet_dimensions_amended (w h : ℚ) (_hw : 0 < w) (_hh : 0 < h) :
    outputSheet w h (orientationOf w h) =
      ((normalize w h (orientationOf w h)).2 / pypdf_scale,
       (normalize w h (orientationOf w h)).1 / pypdf_scale) ∧
    (((outputSheet w h (orientationOf w h)).1 = w / pypdf_scale ∧
      (outputSheet w h (orientationOf w h)).2 = h / pypdf_scale) ∨
     ((outputSheet w h (orientationOf w h)).1 = h / pypdf_scale ∧
      (outputSheet w h (orientationOf w h)).2 = w / pypdf_scale)) ∧
    (w ≠ h → orientationOf (outputSheet w h (orientationOf w h)).1
      (outputSheet w h (orientationOf w h)).2 = Orientation.landscape) ∧
    (w = h → orientationOf (outputSheet w h (orientationOf w h)).1
      (outputSheet w h (orientationOf w h)).2 = Orientation.portrait) := by
  have hs : (0 : ℚ) < pypdf_scale := pypdf_scale_pos
  unfold orientationOf outputSheet normalize
  by_cases hgt : w > h
  · rw [if_pos hgt]
    dsimp only
    refine ⟨rfl, Or.inl ⟨rfl, rfl⟩, ?_, ?_⟩
    · intro _
      rw [if_pos ((div_lt_div_iff_of_pos_right hs).mpr hgt)]
    · intro he
      exfalso
      rw [he] at hgt
      exact lt_irrefl h hgt
  · rw [if_neg hgt]
    dsimp only
    refine ⟨rfl, Or.inr ⟨rfl, rfl⟩, ?_, ?_⟩
    · intro hne
      have hlt : w < h := lt_of_le_of_ne (not_lt.mp hgt) hne
      rw [if_pos ((div_lt_div_iff_of_pos_right hs).mpr hlt)]
    · intro he
      rw [he, if_neg (lt_irrefl _)]

/-- C2 amended witness at the detected A4 Portrait geometry (210, 297). -/
theorem output_sheet_dimensions_amended_witness :
    outputSheet 210 297 (orientationOf 210 297) =
      ((normalize 210 297 (orientationOf 210 297)).2 / pypdf_scale,
       (normalize 210 297 (orientationOf 210 297)).1 / pypdf_scale) ∧
    (((outputSheet 210 297 (orientationOf 210 297)).1 = 210 / pypdf_scale ∧
      (outputSheet 210 297 (orientationOf 210 297)).2 = 297 / pypdf_scale) ∨
     ((outputSheet 210 297 (orientationOf 210 297)).1 = 297 / pypdf_scale ∧
      (outputSheet 210 297 (orientationOf 210 297)).2 = 210 / pypdf_scale)) ∧
    ((210 : ℚ) ≠ 297 → orientationOf (outputSheet 210 297 (orientationOf 210 297)).1
      (outputSheet 210 297 (orientationOf 210 297)).2 = Orientation.landscape) ∧
    ((210 : ℚ) = 297 → orientationOf (outputSheet 210 297 (orientationOf 210 297)).1
      (outputSheet 210 297 (orientationOf 210 297)).2 = Orientation.portrait) :=
  output_sheet_dimensions_amended 210 297 (by norm_num) (by norm_num)

/-- C10 counterexample: the media box `(1, 0, 596, 842)` has a nonzero
lower-left corner, yet the detected geometry coincides with the geometry
computed from the box extents (the rounding absorbs the 1-unit offset), so
nothing downstream differs either; detection does not ALWAYS differ from
the true width/height when the lower-left corner is nonzero. -/
theorem geometry_detection_counterexample :
    (⟨1, 0, 596, 842⟩ : MediaBox).x0 ≠ 0 ∧
    input_size_orientation ⟨1, 0, 596, 842⟩ = extentGeometry ⟨1, 0, 596, 842⟩ := by
  constructor
  · norm_num
  · norm_num [input_size_orientation, extentGeometry, pyRound, pypdf_scale]

/-- C10 amended: detection computes width/height as
`round(x1 * 0.3528)` / `round(y1 * 0.3528)` from the media box's
upper-right corner, not from its extents; when the lower-left corner is
`(0, 0)` this equals the extent-based geometry, and for SOME (not all)
boxes with nonzero lower-left corner the detected geometry differs from
the true extent-based width/height. -/
theorem geometry_detection_amended (m : MediaBox) :
    input_size_orientation m =
      (pyRound (m.x1 * pypdf_scale), pyRound (m.y1 * pypdf_scale),
        if pyRound (m.y1 * pypdf_scale) < pyRound (m.x1 * pypdf_scale)
        then Orientation.landscape else Orientation.portrait) ∧
    (m.x0 = 0 → m.y0 = 0 → input_size_orientation m = extentGeometry m) ∧
    (∃ m' : MediaBox, (m'.x0 ≠ 0 ∨ m'.y0 ≠ 0) ∧
      input_size_orientation m' ≠ extentGeometry m') := by
  refine ⟨rfl, ?_, ?_⟩
  · intro h0 h1
    unfold input_size_orientation extentGeometry
    rw [h0, h1]
    norm_num
  · refine ⟨⟨100, 0, 695, 842⟩, Or.inl (by norm_num), ?_⟩
    norm_num [input_size_orientation, extentGeometry, pyRound, pypdf_scale,
      Prod.ext_iff]

/-- C10 amended witness: a zero lower-left corner gives the extent-based
geometry. -/
theorem geometry_detection_amended_witness :
    input_size_orientation ⟨0, 0, 595, 842⟩ = extentGeometry ⟨0, 0, 595, 842⟩ :=
  (geometry_detection_amended ⟨0, 0, 595, 842⟩).2.1 rfl rfl

/-- C6: for each orientation, the 8 placements (cell-sized footprints
rotated per the table and translated to `(x offset, y offset)`) cover the
output sheet's 4 × 2 grid exactly: every placement occupies a grid cell,
and every one of the 8 grid cells is occupied by exactly one placement —
no overlap, no gap. -/
theorem placements_tile_grid (w h : ℚ) (hw : 0 < w) (hh : 0 < h)
    (o : Orientation) :
    (∀ i : Fin 8, ∃ c, c < 4 ∧ ∃ r, r < 2 ∧
      placementFootprint o w h i = gridCell w h c r) ∧
    (∀ c, c < 4 → ∀ r, r < 2 → ∃! i : Fin 8,
      placementFootprint o w h i = gridCell w h c r) := by
  constructor
  · intro i
    exact ⟨(cellIndexMap i).1, (cellIndexMap_bounds i).1,
      (cellIndexMap i).2, (cellIndexMap_bounds i).2,
      placementFootprint_eq o w h i⟩
  · intro c hc r hr
    refine ⟨cellToIndex c r, ?_, ?_⟩
    · show placementFootprint o w h (cellToIndex c r) = gridCell w h c r
      rw [placementFootprint_eq, cellToIndex_works c hc r hr]
    · intro j hj
      rw [placementFootprint_eq] at hj
      obtain ⟨h1, h2⟩ := gridCell_inj w h hw hh hj
      exact cellIndexMap_determines j c hc r hr (by rw [← h1, ← h2])

/-- C6 witness at the normalized A4 Portrait geometry (210, 297). -/
theorem placements_tile_grid_witness :
    (∀ i : Fin 8, ∃ c, c < 4 ∧ ∃ r, r < 2 ∧
      placementFootprint Orientation.portrait 210 297 i = gridCell 210 297 c r) ∧
    (∀ c, c < 4 → ∀ r, r < 2 → ∃! i : Fin 8,
      placementFootprint Orientation.portrait 210 297 i = gridCell 210 297 c r) :=
  placements_tile_grid 210 297 (by norm_num) (by norm_num) Orientation.portrait

end PocketmodCreator
